import Mathlib

/-!
Verification of the client-side media capture and upload pipeline of the
assessment web application.

The development shallowly embeds the relevant source components:

* The chunked video recorder with bounded-retry recovery
  (src/src/utils/VideoRecorder.js) as a state record and an event-step
  function: chunk delivery, track failure notifications, encoder errors
  and the firing of the scheduled recovery timer are explicit events,
  and each JavaScript event handler runs atomically.  Encoded chunks and
  blobs are byte lists; wall-clock fields of the source (lastChunkTime)
  are not modelled because no property refers to real time.
* The speech recognizer of src/client/src/lib/assessment-helpers.ts:
  its transcript buffers over an explicit character-list representation
  of JavaScript strings, with trim modelled as dropping whitespace at
  both ends, and its support / start logic over an abstract browser
  environment record.
* The upload client VideoStorageService (validateVideo, uploadVideo)
  over an abstract HTTP response record.
-/

/-- A byte fragment emitted by the encoder (event.data of dataavailable). -/
abbrev Chunk : Type := List Nat

/-- A finalized recording artifact (the Blob built from the chunks). -/
abbrev Blob : Type := List Nat

/-- The state field of a MediaRecorder instance. -/
inductive MRState where
  | recording
  | inactive
deriving DecidableEq

/-- Externally observable output of the recorder: the onError callback
firing with a fatal error. -/
inductive ROut where
  | fatal
deriving DecidableEq

/-- The mutable fields of the VideoRecorder class
(src/src/utils/VideoRecorder.js, constructor).  mediaRecorder is none when
the field is null; stream is true when the stream field is non-null;
recoveryTimeout / chunkMonitor record whether the corresponding timers are
pending. -/
structure Recorder where
  mediaRecorder : Option MRState
  recordedChunks : List Chunk
  stream : Bool
  isStreamActive : Bool
  retryAttempts : Nat
  maxRetries : Nat
  recoveryTimeout : Bool
  chunkMonitor : Bool
  chunkSize : Nat

/-- VideoRecorder.cleanup(complete): clears both timers, stops the tracks,
stops an active MediaRecorder, and when complete additionally nulls the
recorder and stream, clears the accumulated chunks and resets the retry
counter and chunk size (source lines 199-237). -/
def Recorder.cleanup (s : Recorder) (complete : Bool) : Recorder :=
  if complete then
    { s with chunkMonitor := false, recoveryTimeout := false,
             mediaRecorder := none, isStreamActive := false, stream := false,
             recordedChunks := [], retryAttempts := 0, chunkSize := 0 }
  else
    { s with chunkMonitor := false, recoveryTimeout := false,
             mediaRecorder := s.mediaRecorder.map (fun _ => MRState.inactive) }

/-- VideoRecorder.handleError: full cleanup followed by the onError
callback (source lines 135-142). -/
def Recorder.handleError (s : Recorder) : Recorder × List ROut :=
  (s.cleanup true, [ROut.fatal])

/-- VideoRecorder.attemptRecovery (source lines 108-133): when the retry
counter has reached maxRetries the failure is fatal; otherwise the pending
recovery timer (if any) is replaced by a freshly scheduled one. -/
def Recorder.attemptRecovery (s : Recorder) : Recorder × List ROut :=
  if s.maxRetries ≤ s.retryAttempts then s.handleError
  else ({ s with recoveryTimeout := true }, [])

/-- Successful completion of VideoRecorder.initializeStream (source lines
26-51): the acquired stream is installed, marked active, and the retry
counter is reset to zero. -/
def Recorder.streamInitOk (s : Recorder) : Recorder :=
  { s with stream := true, isStreamActive := true, retryAttempts := 0 }

/-- Successful completion of VideoRecorder.initializeMediaRecorder (source
lines 62-82): a fresh MediaRecorder is created in the recording state with
the shared dataAvailableHandler, and chunk monitoring starts. -/
def Recorder.recorderInitOk (s : Recorder) : Recorder :=
  { s with mediaRecorder := some MRState.recording, chunkMonitor := true }

/-- The body of the setTimeout scheduled by attemptRecovery, fired only
while pending: increment the retry counter, partial cleanup (complete =
false), then re-acquire stream and recorder.  The parameter ok states
whether the re-acquisition succeeds; on failure the catch block routes the
error to handleError. -/
def Recorder.recoveryTimerFire (s : Recorder) (ok : Bool) : Recorder × List ROut :=
  if s.recoveryTimeout then
    let s2 := ({ s with retryAttempts := s.retryAttempts + 1 }).cleanup false
    if ok then (s2.streamInitOk.recorderInitOk, [])
    else s2.handleError
  else (s, [])

/-- VideoRecorder.handleDataAvailable (source lines 53-60): chunks with
positive size are appended to recordedChunks and counted in chunkSize;
empty chunks are discarded. -/
def Recorder.handleDataAvailable (s : Recorder) (data : Chunk) : Recorder :=
  if 0 < data.length then
    { s with recordedChunks := s.recordedChunks ++ [data],
             chunkSize := s.chunkSize + data.length }
  else s

/-- VideoRecorder.handleRecordingError (source lines 144-152): only an
error named InvalidModificationError is routed to recovery; every other
recorder error goes straight to handleError. -/
def Recorder.handleRecordingError (s : Recorder) (name : String) : Recorder × List ROut :=
  if name = "InvalidModificationError" then s.attemptRecovery else s.handleError

/-- VideoRecorder.stopRecording (source lines 154-190): rejects when the
recorder is null or inactive; otherwise finalizes: rejects when no chunks
were accumulated or their total size is zero, else resolves with the Blob
concatenating all recorded chunks, performing full cleanup either way. -/
def Recorder.stopRecording (s : Recorder) : Recorder × Except String Blob :=
  match s.mediaRecorder with
  | none => (s, Except.error ("No active recording"))
  | some MRState.inactive => (s, Except.error ("No active recording"))
  | some MRState.recording =>
    if s.recordedChunks = [] then
      (s.cleanup true, Except.error ("No recording data available"))
    else if (s.recordedChunks.map List.length).sum = 0 then
      (s.cleanup true, Except.error ("Recording data is empty"))
    else
      (s.cleanup true, Except.ok s.recordedChunks.flatten)

/-- The state built by the VideoRecorder constructor. -/
def initialRecorder : Recorder :=
  { mediaRecorder := none, recordedChunks := [], stream := false,
    isStreamActive := false, retryAttempts := 0, maxRetries := 3,
    recoveryTimeout := false, chunkMonitor := false, chunkSize := 0 }

/-- VideoRecorder.startRecording with both awaited acquisitions
succeeding: the chunk list is cleared, then stream and recorder are set
up (source lines 16-24). -/
def Recorder.startRecordingOk (s : Recorder) : Recorder :=
  (({ s with recordedChunks := [] }).streamInitOk).recorderInitOk

/-- A freshly started recorder. -/
def startedRecorder : Recorder := initialRecorder.startRecordingOk

/-- The asynchronous events a live recorder reacts to.  chunk is a
dataavailable event; trackFailure is a track onended/onmute notification
(both are routed to attemptRecovery, source lines 94-102); encoderError is
a MediaRecorder onerror event carrying the error name; recoveryFire is the
scheduled recovery timeout firing with the given re-acquisition result. -/
inductive REvent where
  | chunk (data : Chunk)
  | trackFailure
  | encoderError (name : String)
  | recoveryFire (ok : Bool)

/-- One event handler invocation.  dataavailable events are delivered only
by a MediaRecorder that is in the recording state. -/
def stepRec (s : Recorder) (ev : REvent) : Recorder × List ROut :=
  match ev with
  | REvent.chunk data =>
    (if s.mediaRecorder = some MRState.recording then s.handleDataAvailable data else s, [])
  | REvent.trackFailure => s.attemptRecovery
  | REvent.encoderError name => s.handleRecordingError name
  | REvent.recoveryFire ok => s.recoveryTimerFire ok

/-- Run a sequence of events, collecting the outputs in order. -/
def runRec (s : Recorder) : List REvent → Recorder × List ROut
  | [] => (s, [])
  | e :: evs =>
    let r := stepRec s e
    let r2 := runRec r.1 evs
    (r2.1, r.2 ++ r2.2)

/-- A recorder that is actively recording with chunk list l: the shape of
every state reachable from startedRecorder by chunk deliveries and
successful recoveries. -/
def recState (l : List Chunk) : Recorder :=
  { mediaRecorder := some MRState.recording, recordedChunks := l,
    stream := true, isStreamActive := true, retryAttempts := 0,
    maxRetries := 3, recoveryTimeout := false, chunkMonitor := true,
    chunkSize := (l.map List.length).sum }

theorem startedRecorder_eq_recState : startedRecorder = recState [] := rfl

theorem stepRec_chunk (l : List Chunk) (c : Chunk) :
    stepRec (recState l) (REvent.chunk c)
      = (recState (l ++ if 0 < c.length then [c] else []), []) := by
  by_cases h : 0 < c.length <;>
    simp [stepRec, Recorder.handleDataAvailable, recState, h, List.sum_append]

theorem runRec_chunks (cs : List Chunk) (l : List Chunk) :
    runRec (recState l) (cs.map REvent.chunk)
      = (recState (l ++ cs.filter (fun c => decide (0 < c.length))), []) := by
  induction cs generalizing l with
  | nil => simp [runRec]
  | cons c t ih =>
    by_cases h : 0 < c.length
    · simp only [List.map_cons, runRec, stepRec_chunk, h, if_pos, ih,
        List.filter_cons, decide_eq_true_eq, List.append_assoc]
      simp [h]
    · simp only [List.map_cons, runRec, stepRec_chunk, h, if_neg, ih,
        List.filter_cons, decide_eq_true_eq, List.append_assoc]
      simp [h]

theorem stepRec_trackFailure (l : List Chunk) :
    stepRec (recState l) REvent.trackFailure
      = ({ recState l with recoveryTimeout := true }, []) := by
  simp [stepRec, Recorder.attemptRecovery, recState]

theorem stepRec_recoveryFire_true (l : List Chunk) :
    stepRec { recState l with recoveryTimeout := true } (REvent.recoveryFire true)
      = (recState l, []) := by
  simp [stepRec, Recorder.recoveryTimerFire, Recorder.cleanup,
    Recorder.streamInitOk, Recorder.recorderInitOk, recState]

theorem stopRecording_recState (l : List Chunk) (h : l ≠ [])
    (h2 : (l.map List.length).sum ≠ 0) :
    (recState l).stopRecording = ((recState l).cleanup true, Except.ok l.flatten) := by
  simp [Recorder.stopRecording, recState, h, h2]

theorem runRec_append (s : Recorder) (l1 l2 : List REvent) :
    runRec s (l1 ++ l2)
      = ((runRec (runRec s l1).1 l2).1, (runRec s l1).2 ++ (runRec (runRec s l1).1 l2).2) := by
  induction l1 generalizing s with
  | nil => simp [runRec]
  | cons e t ih => simp [runRec, ih, List.append_assoc]

theorem filter_pos_of_all (cs : List Chunk) (h : ∀ c ∈ cs, 0 < c.length) :
    cs.filter (fun c => decide (0 < c.length)) = cs := by
  apply List.filter_eq_self.mpr
  intro c hc
  exact decide_eq_true (h c hc)

/-- Claim C1: in a recording where chunks are accumulated, a recovery
event is injected, and recovery succeeds, the finalized artifact is
exactly the bytes of the pre-failure chunks followed by the post-recovery
chunks, in chronological order, with no duplication and no loss: the
partial cleanup performed by the recovery path preserves recordedChunks
and the re-created MediaRecorder appends to the same list. -/
theorem C1_recovery_appends_to_same_sequence (cs1 cs2 : List Chunk)
    (h1 : cs1 ≠ []) (h3 : ∀ c ∈ cs1, 0 < c.length) (h4 : ∀ c ∈ cs2, 0 < c.length) :
    (runRec startedRecorder
        (cs1.map REvent.chunk ++ REvent.trackFailure :: REvent.recoveryFire true
          :: cs2.map REvent.chunk)).2 = [] ∧
    ((runRec startedRecorder
        (cs1.map REvent.chunk ++ REvent.trackFailure :: REvent.recoveryFire true
          :: cs2.map REvent.chunk)).1.stopRecording).2
      = Except.ok ((cs1 ++ cs2).flatten) := by
  have hrun : runRec startedRecorder
      (cs1.map REvent.chunk ++ REvent.trackFailure :: REvent.recoveryFire true
        :: cs2.map REvent.chunk) = (recState (cs1 ++ cs2), []) := by
    rw [startedRecorder_eq_recState, runRec_append, runRec_chunks]
    simp only [List.nil_append, filter_pos_of_all cs1 h3]
    show runRec (recState cs1) (REvent.trackFailure :: REvent.recoveryFire true
        :: cs2.map REvent.chunk) = _
    rw [runRec, stepRec_trackFailure]
    rw [runRec, stepRec_recoveryFire_true, runRec_chunks]
    simp [filter_pos_of_all cs2 h4]
  rw [hrun]
  have hsum : (((cs1 ++ cs2).map List.length).sum) ≠ 0 := by
    cases cs1 with
    | nil => exact absurd rfl h1
    | cons c t =>
      have hc : 0 < c.length := h3 c (by simp)
      simp only [List.cons_append, List.map_cons, List.sum_cons]
      omega
  have hne : cs1 ++ cs2 ≠ [] := by
    cases cs1 with
    | nil => exact absurd rfl h1
    | cons c t => simp
  rw [stopRecording_recState _ hne hsum]
  exact ⟨rfl, rfl⟩

/-- Witness for C1: two chunks before the failure, one after, artifact is
their concatenation in order. -/
theorem C1_witness :
    (([[1], [2]] : List Chunk) ≠ []) ∧
    (runRec startedRecorder
        (([[1], [2]] : List Chunk).map REvent.chunk
          ++ REvent.trackFailure :: REvent.recoveryFire true
          :: ([[3]] : List Chunk).map REvent.chunk)).2 = [] ∧
    ((runRec startedRecorder
        (([[1], [2]] : List Chunk).map REvent.chunk
          ++ REvent.trackFailure :: REvent.recoveryFire true
          :: ([[3]] : List Chunk).map REvent.chunk)).1.stopRecording).2
      = Except.ok [1, 2, 3] := by
  have h := C1_recovery_appends_to_same_sequence [[1], [2]] [[3]]
    (by decide) (by decide) (by decide)
  refine ⟨by decide, h.1, ?_⟩
  rw [h.2]
  rfl

theorem flatten_filter_length (cs : List Chunk) :
    ((cs.filter (fun c => decide (0 < c.length))).flatten).length
      = (cs.map List.length).sum := by
  induction cs with
  | nil => rfl
  | cons c t ih =>
    by_cases h : 0 < c.length
    · simp only [List.filter_cons, decide_eq_true_eq]
      rw [if_pos h]
      simp only [List.flatten_cons, List.length_append, List.map_cons,
        List.sum_cons, ih]
    · have hz : c.length = 0 := by omega
      simp only [List.filter_cons, decide_eq_true_eq]
      rw [if_neg h]
      simp only [List.map_cons, List.sum_cons, hz, ih]
      omega

/-- Claim C7: for every sequence of delivered chunks, the finalized
artifact equals the concatenation, in arrival order, of exactly the chunks
with positive byte length; zero-length chunks are never appended, and the
artifact byte length is the sum of the sizes of all delivered chunks
(empty ones contributing zero). -/
theorem C7_artifact_is_ordered_concat (cs : List Chunk)
    (h : cs.filter (fun c => decide (0 < c.length)) ≠ []) :
    ((runRec startedRecorder (cs.map REvent.chunk)).1.stopRecording).2
      = Except.ok ((cs.filter (fun c => decide (0 < c.length))).flatten) ∧
    ((cs.filter (fun c => decide (0 < c.length))).flatten).length
      = (cs.map List.length).sum := by
  refine ⟨?_, flatten_filter_length cs⟩
  rw [startedRecorder_eq_recState, runRec_chunks]
  simp only [List.nil_append]
  have hsum : ((cs.filter (fun c => decide (0 < c.length))).map List.length).sum ≠ 0 := by
    cases hf : cs.filter (fun c => decide (0 < c.length)) with
    | nil => exact absurd hf h
    | cons c t =>
      have hc : c ∈ cs.filter (fun c => decide (0 < c.length)) := by
        rw [hf]; exact List.mem_cons_self c t
      have := (List.mem_filter.mp hc).2
      have hcl : 0 < c.length := of_decide_eq_true this
      simp only [List.map_cons, List.sum_cons]
      omega
  rw [stopRecording_recState _ h hsum]

/-- Witness for C7: chunk sizes 1000, 1500 and 1200 with an interspersed
empty chunk produce an artifact of 3700 bytes. -/
theorem C7_witness :
    (([List.replicate 1000 7, [], List.replicate 1500 8, List.replicate 1200 9] : List Chunk).filter
        (fun c => decide (0 < c.length)) ≠ []) ∧
    ((([List.replicate 1000 7, [], List.replicate 1500 8, List.replicate 1200 9] : List Chunk).filter
        (fun c => decide (0 < c.length))).flatten).length
      = (([List.replicate 1000 7, [], List.replicate 1500 8, List.replicate 1200 9] : List Chunk).map
          List.length).sum ∧
    (([List.replicate 1000 7, [], List.replicate 1500 8, List.replicate 1200 9] : List Chunk).map
        List.length).sum = 3700 := by
  have hne : ([List.replicate 1000 7, [], List.replicate 1500 8, List.replicate 1200 9] : List Chunk).filter
      (fun c => decide (0 < c.length)) ≠ [] := by
    simp only [List.filter_cons, decide_eq_true_eq, List.length_replicate]
    rw [if_pos (by norm_num)]
    exact List.cons_ne_nil _ _
  have h := C7_artifact_is_ordered_concat
    [List.replicate 1000 7, [], List.replicate 1500 8, List.replicate 1200 9] hne
  refine ⟨hne, h.2, ?_⟩
  simp only [List.map_cons, List.map_nil, List.length_replicate, List.length_nil,
    List.sum_cons, List.sum_nil]
  norm_num

/-- Counterexample to claim C2: a single failed recovery attempt already
surfaces the fatal error (no three-failure budget is consumed), and after
three consecutive track failures with failed recoveries the supposed
terminal state is not terminal: a further failure notification schedules
a new recovery timer, and its firing re-acquires a stream and recorder. -/
theorem C2_counterexample :
    (runRec startedRecorder [REvent.trackFailure, REvent.recoveryFire false]).2
      = [ROut.fatal] ∧
    (runRec startedRecorder [REvent.trackFailure, REvent.recoveryFire false]).1.retryAttempts
      = 0 ∧
    (stepRec (runRec startedRecorder [REvent.trackFailure, REvent.recoveryFire false,
        REvent.trackFailure, REvent.recoveryFire false,
        REvent.trackFailure, REvent.recoveryFire false]).1 REvent.trackFailure).1.recoveryTimeout
      = true ∧
    (runRec (runRec startedRecorder [REvent.trackFailure, REvent.recoveryFire false,
        REvent.trackFailure, REvent.recoveryFire false,
        REvent.trackFailure, REvent.recoveryFire false]).1
        [REvent.trackFailure, REvent.recoveryFire true]).1.mediaRecorder
      = some MRState.recording :=
  ⟨rfl, rfl, rfl, rfl⟩

/-- Claim C2 (amended): the retry counter is zero after every completed
recovery attempt — a successful re-acquisition resets it and a failed one
triggers a fatal error whose full cleanup also resets it — and because of
that reset a failure notification arriving after the fatal error schedules
another recovery attempt instead of being ignored. -/
theorem C2_retry_counter_behavior (s : Recorder) (h : s.recoveryTimeout = true)
    (hm : 0 < s.maxRetries) :
    (s.recoveryTimerFire true).1.retryAttempts = 0 ∧
    (s.recoveryTimerFire false).2 = [ROut.fatal] ∧
    (s.recoveryTimerFire false).1.retryAttempts = 0 ∧
    ((s.recoveryTimerFire false).1.attemptRecovery).1.recoveryTimeout = true ∧
    ((s.recoveryTimerFire false).1.attemptRecovery).2 = [] := by
  have hg : ¬ (s.maxRetries ≤ 0) := by omega
  simp [Recorder.recoveryTimerFire, Recorder.cleanup, Recorder.handleError,
    Recorder.attemptRecovery, Recorder.streamInitOk, Recorder.recorderInitOk, h, hg]

/-- Witness for the amended C2 at a concrete pending-recovery state. -/
theorem C2_witness :
    ((stepRec startedRecorder REvent.trackFailure).1.recoveryTimeout = true) ∧
    (0 < (stepRec startedRecorder REvent.trackFailure).1.maxRetries) ∧
    (((stepRec startedRecorder REvent.trackFailure).1.recoveryTimerFire false).2
      = [ROut.fatal]) :=
  ⟨rfl, by decide, (C2_retry_counter_behavior _ rfl (by decide)).2.1⟩

/-- Counterexample to claim C3: after three consecutive track failures
whose recoveries fail, the fatal error has been surfaced but the chunk
accumulated before the failure is discarded — the chunk list is empty and
stop rejects, so no partial artifact is retrievable. -/
theorem C3_counterexample :
    (runRec startedRecorder [REvent.chunk [5], REvent.trackFailure, REvent.recoveryFire false,
        REvent.trackFailure, REvent.recoveryFire false,
        REvent.trackFailure, REvent.recoveryFire false]).2
      = [ROut.fatal, ROut.fatal, ROut.fatal] ∧
    (runRec startedRecorder [REvent.chunk [5], REvent.trackFailure, REvent.recoveryFire false,
        REvent.trackFailure, REvent.recoveryFire false,
        REvent.trackFailure, REvent.recoveryFire false]).1.recordedChunks = [] ∧
    ((runRec startedRecorder [REvent.chunk [5], REvent.trackFailure, REvent.recoveryFire false,
        REvent.trackFailure, REvent.recoveryFire false,
        REvent.trackFailure, REvent.recoveryFire false]).1.stopRecording).2
      = Except.error ("No active recording") :=
  ⟨rfl, rfl, rfl⟩

/-- Claim C3 (amended): every fatal failure performs a full cleanup that
discards the accumulated chunks; after it the chunk list is empty and
stopRecording rejects, so the pre-failure partial artifact is not
retrievable from the recorder. -/
theorem C3_fatal_discards_chunks (s : Recorder) :
    (s.handleError).2 = [ROut.fatal] ∧
    (s.handleError).1.recordedChunks = [] ∧
    ((s.handleError).1.stopRecording).2 = Except.error ("No active recording") :=
  ⟨rfl, rfl, rfl⟩

/-- Counterexample to claim C4: the first stop resolves with the artifact,
but the immediately following second stop rejects with the no-active
error instead of returning the same artifact reference. -/
theorem C4_counterexample :
    ((runRec startedRecorder [REvent.chunk [1]]).1.stopRecording).2 = Except.ok [1] ∧
    (((runRec startedRecorder [REvent.chunk [1]]).1.stopRecording).1.stopRecording).2
      = Except.error ("No active recording") :=
  ⟨rfl, rfl⟩

/-- Claim C4 (amended): after any successful stop, a second stop neither
re-finalizes nor duplicates chunks — the cleanup performed by the first
stop cleared the chunk list — but it does not return the artifact again:
it rejects with the no-active-recording error. -/
theorem C4_second_stop_rejects (s : Recorder) (b : Blob)
    (h : (s.stopRecording).2 = Except.ok b) :
    ((s.stopRecording).1.stopRecording).2 = Except.error ("No active recording") ∧
    (s.stopRecording).1.recordedChunks = [] := by
  cases hm : s.mediaRecorder with
  | none => simp [Recorder.stopRecording, hm] at h
  | some st =>
    cases st with
    | inactive => simp [Recorder.stopRecording, hm] at h
    | recording =>
      by_cases h1 : s.recordedChunks = []
      · simp [Recorder.stopRecording, hm, h1] at h
      · by_cases h2 : (s.recordedChunks.map List.length).sum = 0
        · simp [Recorder.stopRecording, hm, h1, h2] at h
        · simp [Recorder.stopRecording, Recorder.cleanup, hm, h1, h2]

/-- Witness for the amended C4 at a concrete recording state. -/
theorem C4_witness :
    ((recState [[2]]).stopRecording).2 = Except.ok [2] ∧
    (((recState [[2]]).stopRecording).1.stopRecording).2
      = Except.error ("No active recording") :=
  ⟨rfl, (C4_second_stop_rejects (recState [[2]]) [2] rfl).1⟩

/-- Counterexample to claim C6: an encoder error that is not named
InvalidModificationError, arriving with the full retry budget remaining,
is surfaced as fatal immediately instead of triggering a recovery
attempt. -/
theorem C6_counterexample :
    startedRecorder.retryAttempts = 0 ∧ startedRecorder.maxRetries = 3 ∧
    (stepRec startedRecorder (REvent.encoderError ("SecurityError"))).2 = [ROut.fatal] ∧
    (stepRec startedRecorder (REvent.encoderError ("SecurityError"))).1.mediaRecorder
      = none :=
  ⟨rfl, rfl, rfl, rfl⟩

/-- Claim C6 (amended): while retry budget remains, an encoder error named
InvalidModificationError schedules a recovery attempt and surfaces nothing
to the caller, but every differently named encoder error is routed to
handleError and surfaces a fatal error immediately. -/
theorem C6_error_routing (s : Recorder) (name : String)
    (h : s.retryAttempts < s.maxRetries) :
    s.handleRecordingError ("InvalidModificationError")
      = ({ s with recoveryTimeout := true }, []) ∧
    (name ≠ "InvalidModificationError" →
      (s.handleRecordingError name).2 = [ROut.fatal]) := by
  constructor
  · have hg : ¬ (s.maxRetries ≤ s.retryAttempts) := by omega
    simp [Recorder.handleRecordingError, Recorder.attemptRecovery, hg]
  · intro hn
    simp [Recorder.handleRecordingError, hn, Recorder.handleError]

/-- Witness for the amended C6 at the freshly started recorder. -/
theorem C6_witness :
    startedRecorder.retryAttempts < startedRecorder.maxRetries ∧
    startedRecorder.handleRecordingError ("InvalidModificationError")
      = ({ startedRecorder with recoveryTimeout := true }, []) :=
  ⟨by decide, (C6_error_routing startedRecorder ("OtherError") (by decide)).1⟩

theorem dropWhile_dropWhile (p : α → Bool) (l : List α) :
    List.dropWhile p (List.dropWhile p l) = List.dropWhile p l := by
  induction l with
  | nil => rfl
  | cons a t ih =>
    rw [List.dropWhile_cons]
    cases hpa : p a
    · simp [List.dropWhile_cons, hpa]
    · simpa using ih

theorem length_dropWhile_le (p : α → Bool) (l : List α) :
    (l.dropWhile p).length ≤ l.length := by
  induction l with
  | nil => simp
  | cons a t ih =>
    rw [List.dropWhile_cons]
    cases hpa : p a
    · simp
    · rw [if_pos rfl]
      simp only [List.length_cons]
      omega

theorem exists_append_dropWhile (p : α → Bool) (l : List α) :
    ∃ u, l = u ++ l.dropWhile p := by
  induction l with
  | nil => exact ⟨[], rfl⟩
  | cons a t ih =>
    rw [List.dropWhile_cons]
    cases hpa : p a
    · exact ⟨[], by simp⟩
    · obtain ⟨u, hu⟩ := ih
      exact ⟨a :: u, by simpa using hu⟩

theorem head_false_of_dropWhile_cons_eq (p : α → Bool) (a : α) (t : List α)
    (h : List.dropWhile p (a :: t) = a :: t) : p a = false := by
  cases hpa : p a
  · rfl
  · exfalso
    rw [List.dropWhile_cons, hpa, if_pos rfl] at h
    have := length_dropWhile_le p t
    rw [h] at this
    simp at this

/-- JavaScript String.prototype.trim over the character-list
representation: drop whitespace from the front, then from the back. -/
def trimStart (s : List Char) : List Char := s.dropWhile Char.isWhitespace

/-- Back half of the trim model. -/
def trimEnd (s : List Char) : List Char :=
  (s.reverse.dropWhile Char.isWhitespace).reverse

/-- Full trim, as applied by the recognizer to its buffers. -/
def jsTrim (s : List Char) : List Char := trimEnd (trimStart s)

theorem trimStart_idem (s : List Char) : trimStart (trimStart s) = trimStart s :=
  dropWhile_dropWhile _ _

theorem trimEnd_idem (s : List Char) : trimEnd (trimEnd s) = trimEnd s := by
  unfold trimEnd
  rw [List.reverse_reverse, dropWhile_dropWhile]

theorem trimStart_trimEnd (s : List Char) (h : trimStart s = s) :
    trimStart (trimEnd s) = trimEnd s := by
  obtain ⟨u, hu⟩ := exists_append_dropWhile Char.isWhitespace s.reverse
  have hs : s = trimEnd s ++ u.reverse := by
    unfold trimEnd
    calc s = s.reverse.reverse := (List.reverse_reverse s).symm
    _ = (u ++ s.reverse.dropWhile Char.isWhitespace).reverse := by rw [← hu]
    _ = (s.reverse.dropWhile Char.isWhitespace).reverse ++ u.reverse := by
        rw [List.reverse_append]
  cases htr : trimEnd s with
  | nil => simp [trimStart]
  | cons a t =>
    have hsa : s = a :: (t ++ u.reverse) := by rw [hs, htr]; rfl
    have hna : Char.isWhitespace a = false := by
      apply head_false_of_dropWhile_cons_eq Char.isWhitespace a (t ++ u.reverse)
      rw [← hsa]
      exact h
    unfold trimStart
    rw [List.dropWhile_cons, hna]
    simp

theorem jsTrim_idem (s : List Char) : jsTrim (jsTrim s) = jsTrim s := by
  unfold jsTrim
  rw [trimStart_trimEnd _ (trimStart_idem s), trimEnd_idem]

/-- One entry of the results array of a SpeechRecognitionEvent: whether
the segment is final and its transcript text. -/
structure SpeechSegment where
  isFinal : Bool
  transcript : List Char
deriving DecidableEq

/-- The two transcript buffers of the SpeechRecognizer class. -/
structure TranscriptState where
  finalTranscript : List Char
  interimTranscript : List Char
deriving DecidableEq

/-- One iteration of the loop in the onresult handler
(src/client/src/lib/assessment-helpers.ts lines 326-336): final segments
are appended to the final buffer followed by a space, interim segments are
concatenated into the interim buffer. -/
def applySegment (st : TranscriptState) (seg : SpeechSegment) : TranscriptState :=
  if seg.isFinal then
    { st with finalTranscript := st.finalTranscript ++ seg.transcript ++ [' '] }
  else
    { st with interimTranscript := st.interimTranscript ++ seg.transcript }

/-- The onresult handler (source lines 318-361): the interim buffer is
reset, the new batch of segments is folded in, then both buffers are
trimmed. -/
def onresult (st : TranscriptState) (results : List SpeechSegment) : TranscriptState :=
  let st1 := List.foldl applySegment { st with interimTranscript := [] } results
  { finalTranscript := jsTrim st1.finalTranscript,
    interimTranscript := jsTrim st1.interimTranscript }

/-- getCurrentTranscript (source lines 410-412): the trimmed join of the
two buffers with a single space between them. -/
def getCurrentTranscript (st : TranscriptState) : List Char :=
  jsTrim (st.finalTranscript ++ [' '] ++ st.interimTranscript)

/-- Both buffers start empty. -/
def initTranscript : TranscriptState :=
  { finalTranscript := [], interimTranscript := [] }

/-- Process a whole sequence of recognition events. -/
def processResults (st : TranscriptState) (evs : List (List SpeechSegment)) :
    TranscriptState :=
  evs.foldl onresult st

theorem foldl_interim_only (batch : List SpeechSegment) (st : TranscriptState)
    (h : ∀ seg ∈ batch, seg.isFinal = false) :
    (List.foldl applySegment st batch).finalTranscript = st.finalTranscript := by
  induction batch generalizing st with
  | nil => rfl
  | cons seg t ih =>
    have hs : seg.isFinal = false := h seg (by simp)
    rw [List.foldl_cons, ih _ (fun x hx => h x (by simp [hx]))]
    simp [applySegment, hs]

theorem onresult_final_trimmed (st : TranscriptState) (results : List SpeechSegment) :
    jsTrim (onresult st results).finalTranscript = (onresult st results).finalTranscript := by
  simp [onresult, jsTrim_idem]

theorem processResults_final_trimmed (evs : List (List SpeechSegment))
    (st : TranscriptState) (h : jsTrim st.finalTranscript = st.finalTranscript) :
    jsTrim (processResults st evs).finalTranscript
      = (processResults st evs).finalTranscript := by
  induction evs generalizing st with
  | nil => exact h
  | cons b t ih =>
    show jsTrim (processResults (onresult st b) t).finalTranscript = _
    exact ih _ (onresult_final_trimmed st b)

/-- Claim C5: in every reachable transcript state the externally visible
current transcript is the trimmed space-join of the final and interim
buffers, and an interim-only recognition event leaves the final buffer
exactly unchanged, so a segment appended by a final event is never removed
by any later interim-only event. -/
theorem C5_transcript_buffer (evs : List (List SpeechSegment))
    (batch : List SpeechSegment) (h : ∀ seg ∈ batch, seg.isFinal = false) :
    (onresult (processResults initTranscript evs) batch).finalTranscript
      = (processResults initTranscript evs).finalTranscript ∧
    (∀ st : TranscriptState,
      getCurrentTranscript st
        = jsTrim (st.finalTranscript ++ [' '] ++ st.interimTranscript)) := by
  constructor
  · have h1 : jsTrim (processResults initTranscript evs).finalTranscript
        = (processResults initTranscript evs).finalTranscript :=
      processResults_final_trimmed evs initTranscript rfl
    simp only [onresult]
    rw [foldl_interim_only batch _ h]
    exact h1
  · intro st
    rfl

/-- Witness for C5: one final segment followed by an interim-only event
leaves the final buffer untouched. -/
theorem C5_witness :
    (∀ seg ∈ [SpeechSegment.mk false ['y', 'o']], seg.isFinal = false) ∧
    (onresult (processResults initTranscript [[SpeechSegment.mk true ['h', 'i']]])
        [SpeechSegment.mk false ['y', 'o']]).finalTranscript
      = (processResults initTranscript [[SpeechSegment.mk true ['h', 'i']]]).finalTranscript :=
  ⟨by decide, (C5_transcript_buffer [[SpeechSegment.mk true ['h', 'i']]]
      [SpeechSegment.mk false ['y', 'o']] (by decide)).1⟩

/-- The browser capabilities isRecognitionSupported inspects (source lines
414-432): presence of the SpeechRecognition API, a secure context, and
availability of getUserMedia. -/
structure SpeechEnv where
  hasApi : Bool
  secureContext : Bool
  hasAudio : Bool

/-- A created recognition engine instance; engineStarted records whether
its start method has been invoked. -/
structure RecognitionInstance where
  engineStarted : Bool
deriving DecidableEq

/-- The recognizer fields relevant to start: the recognition instance (or
null) and the isListening flag. -/
structure SpeechRecognizerState where
  recognition : Option RecognitionInstance
  isListening : Bool
deriving DecidableEq

/-- initRecognition (source lines 285-363): creates a recognition
instance only when the API constructor exists in the window; it checks
neither the security context nor audio availability. -/
def initRecognition (env : SpeechEnv) (s : SpeechRecognizerState) : SpeechRecognizerState :=
  if env.hasApi then { s with recognition := some { engineStarted := false } } else s

/-- The recognizer constructor ends by calling initRecognition. -/
def newSpeechRecognizer (env : SpeechEnv) : SpeechRecognizerState :=
  initRecognition env { recognition := none, isListening := false }

/-- The start method (source lines 365-384): retries initRecognition when
the instance is null and returns if it is still null; otherwise, when not
already listening, starts the engine and sets isListening. -/
def startRecognizer (env : SpeechEnv) (s : SpeechRecognizerState) : SpeechRecognizerState :=
  let s1 := match s.recognition with
    | none => initRecognition env s
    | some _ => s
  match s1.recognition with
  | none => s1
  | some r =>
    if s1.isListening then s1
    else { s1 with recognition := some { r with engineStarted := true },
                   isListening := true }

/-- isRecognitionSupported (source lines 414-432): the conjunction of the
three capability checks. -/
def isRecognitionSupported (env : SpeechEnv) : Bool :=
  env.hasApi && env.secureContext && env.hasAudio

/-- Counterexample to claim C9: when the API is present but the security
context disqualifies it, isSupported reports false yet start is not a
no-op — it creates the engine and starts it. -/
theorem C9_counterexample :
    isRecognitionSupported { hasApi := true, secureContext := false, hasAudio := true }
      = false ∧
    (startRecognizer { hasApi := true, secureContext := false, hasAudio := true }
        (newSpeechRecognizer
          { hasApi := true, secureContext := false, hasAudio := true })).isListening
      = true ∧
    (startRecognizer { hasApi := true, secureContext := false, hasAudio := true }
        (newSpeechRecognizer
          { hasApi := true, secureContext := false, hasAudio := true })).recognition
      = some { engineStarted := true } :=
  ⟨rfl, rfl, rfl⟩

/-- Claim C9 (amended): isSupported reports false whenever the API is
absent, the context is insecure, or audio is unavailable; start is a
no-op exactly in the API-absent case — in the other unsupported cases it
still starts the recognition engine. -/
theorem C9_support_and_start (env : SpeechEnv) :
    (env.hasApi = false →
      isRecognitionSupported env = false ∧
      startRecognizer env (newSpeechRecognizer env) = newSpeechRecognizer env) ∧
    (env.secureContext = false → isRecognitionSupported env = false) ∧
    (env.hasAudio = false → isRecognitionSupported env = false) := by
  refine ⟨fun h => ⟨?_, ?_⟩, fun h => ?_, fun h => ?_⟩
  · simp [isRecognitionSupported, h]
  · simp [startRecognizer, newSpeechRecognizer, initRecognition, h]
  · simp [isRecognitionSupported, h]
  · simp [isRecognitionSupported, h]

/-- Witness for the amended C9 in an API-absent environment. -/
theorem C9_witness :
    ({ hasApi := false, secureContext := true, hasAudio := true } : SpeechEnv).hasApi
      = false ∧
    isRecognitionSupported { hasApi := false, secureContext := true, hasAudio := true }
      = false ∧
    startRecognizer { hasApi := false, secureContext := true, hasAudio := true }
        (newSpeechRecognizer { hasApi := false, secureContext := true, hasAudio := true })
      = newSpeechRecognizer { hasApi := false, secureContext := true, hasAudio := true } := by
  have h := (C9_support_and_start
    { hasApi := false, secureContext := true, hasAudio := true }).1 rfl
  exact ⟨rfl, h.1, h.2⟩

/-- The parts of the HTTP response uploadVideo inspects: ok / status /
statusText, the error body text, and the parsed JSON object as a string
field map. -/
structure HttpResponse where
  ok : Bool
  status : Nat
  statusText : String
  bodyText : String
  jsonFields : List (String × String)

/-- VideoStorageService.uploadVideo (src/unnamed/part_004 lines 65-124)
applied to the awaited response: non-ok responses raise carrying status,
statusText and body; ok responses read the fieldnameUrl JSON field, whose
absence (or JavaScript-falsy emptiness) raises; the outer catch prepends
its own message.  A single request is issued — no retry. -/
def uploadVideo (fieldname : String) (resp : HttpResponse) : Except String String :=
  if resp.ok then
    let videoUrl := (resp.jsonFields.lookup (fieldname ++ "Url")).getD ""
    if videoUrl = "" then
      Except.error ("Failed to upload " ++ fieldname ++ " video: Server response missing "
        ++ fieldname ++ "Url")
    else Except.ok videoUrl
  else
    Except.error ("Failed to upload " ++ fieldname ++ " video: Upload failed: "
      ++ toString resp.status ++ " " ++ resp.statusText ++ " - " ++ resp.bodyText)

/-- Counterexample to claim C8: a successful response whose JSON does
contain the webcamVideoUrl field, bound to the empty string, is rejected
as missing rather than returned, because the source tests the field with
a JavaScript falsiness check. -/
theorem C8_counterexample :
    uploadVideo ("webcamVideo")
        { ok := true, status := 200, statusText := "OK", bodyText := "",
          jsonFields := [("webcamVideoUrl", "")] }
      = Except.error
          ("Failed to upload webcamVideo video: Server response missing webcamVideoUrl") :=
  rfl

/-- Claim C8 (amended): upload returns the fieldnameUrl value of a
successful response when that field is present and non-empty; it fails
carrying the response detail on any non-ok response, and fails with the
missing-field error when the field is absent (or empty) in a successful
response; no retry exists — the function consumes exactly one response. -/
theorem C8_upload_contract (resp : HttpResponse) (fieldname v : String) :
    (resp.ok = false →
      uploadVideo fieldname resp
        = Except.error ("Failed to upload " ++ fieldname ++ " video: Upload failed: "
            ++ toString resp.status ++ " " ++ resp.statusText ++ " - " ++ resp.bodyText)) ∧
    (resp.ok = true → resp.jsonFields.lookup (fieldname ++ "Url") = some v → v ≠ "" →
      uploadVideo fieldname resp = Except.ok v) ∧
    (resp.ok = true → resp.jsonFields.lookup (fieldname ++ "Url") = none →
      uploadVideo fieldname resp
        = Except.error ("Failed to upload " ++ fieldname ++ " video: Server response missing "
            ++ fieldname ++ "Url")) := by
  refine ⟨fun h => ?_, fun h hl hv => ?_, fun h hl => ?_⟩
  · simp [uploadVideo, h]
  · simp [uploadVideo, h, hl, hv]
  · simp [uploadVideo, h, hl]

/-- Witness for the amended C8 at a concrete successful response. -/
theorem C8_witness :
    (({ ok := true, status := 200, statusText := "OK", bodyText := "ignored",
        jsonFields := [("screenVideoUrl", "/uploads/a.webm")] } : HttpResponse).jsonFields.lookup
        ("screenVideo" ++ "Url") = some "/uploads/a.webm") ∧
    uploadVideo ("screenVideo")
        { ok := true, status := 200, statusText := "OK", bodyText := "ignored",
          jsonFields := [("screenVideoUrl", "/uploads/a.webm")] }
      = Except.ok ("/uploads/a.webm") :=
  ⟨rfl, (C8_upload_contract
      { ok := true, status := 200, statusText := "OK", bodyText := "ignored",
        jsonFields := [("screenVideoUrl", "/uploads/a.webm")] }
      ("screenVideo") ("/uploads/a.webm")).2.1 rfl rfl (by decide)⟩

/-- VideoStorageService.validateVideo (src/unnamed/part_004 lines 42-63):
a null or undefined blob fails validation, as does an empty one; any
non-empty blob passes.  The argument is an Option to model the absent
blob. -/
def validateVideo (blob : Option Blob) : Bool :=
  match blob with
  | none => false
  | some b => if b.length = 0 then false else true

/-- Claim C10: validation fails closed — it returns false (rather than
throwing) on an absent artifact and on a zero-length one, and returns
true exactly for non-empty artifacts. -/
theorem C10_validate_fails_closed :
    validateVideo none = false ∧ validateVideo (some []) = false ∧
    ∀ b : Blob, (validateVideo (some b) = true ↔ b ≠ []) := by
  refine ⟨rfl, rfl, fun b => ?_⟩
  cases b with
  | nil => simp [validateVideo]
  | cons x t => simp [validateVideo]
